import Mathlib

/-!
# RC2014-FPU: register file, opcode store, operation dispatcher, bus handler

A shallow embedding of the coprocessor core.

* `std::size_t` indices, `uint8_t` fields and `uint32_t` / `uint64_t` words are
  natural numbers; the width of a field is a hypothesis of the theorem that
  needs it, and C++ unsigned arithmetic is written with an explicit `% 2 ^ w`.
* `std::array<T, N>` is a total map `Fin N → T`; the bounds check of the source
  is the `if h : index < N` that produces the `Fin N`.
* A member function that mutates `*this` returns the new object next to its
  C++ return value.
* `float` / `double` and the operators on them are a parameter (`FloatModel`):
  `std::bit_cast` in both directions and the twelve operators.
* The bus is an object behind a virtual interface. Its calls are observable
  effects, so the embedding records every `respond` / `set_busy` call in a
  log, oldest first.
-/

set_option autoImplicit false

namespace fpu

/-! ## include/fpu/registers.hpp, src/registers.cpp -/

/-- The constant `kRegisterCount32`. -/
def kRegisterCount32 : Nat := 256

/-- The constant `kRegisterCount64`. -/
def kRegisterCount64 : Nat := 256

/-- The class `RegisterFile`: the two private arrays. -/
structure RegisterFile where
  reg32_ : Fin kRegisterCount32 → Nat
  reg64_ : Fin kRegisterCount64 → Nat

namespace RegisterFile

/-- The default member initialisers `reg32_{}` and `reg64_{}`: all zero. -/
def init : RegisterFile :=
  { reg32_ := fun _ => 0, reg64_ := fun _ => 0 }

/-- The method `RegisterFile::read32`. -/
def read32 (self : RegisterFile) (index : Nat) : Option Nat :=
  if h : index ≥ kRegisterCount32 then
    none
  else
    some (self.reg32_ ⟨index, Nat.lt_of_not_ge h⟩)

/-- The method `RegisterFile::read64`. -/
def read64 (self : RegisterFile) (index : Nat) : Option Nat :=
  if h : index ≥ kRegisterCount64 then
    none
  else
    some (self.reg64_ ⟨index, Nat.lt_of_not_ge h⟩)

/-- The method `RegisterFile::write32`: the register file after the call and
the returned flag. -/
def write32 (self : RegisterFile) (index : Nat) (value : Nat) : RegisterFile × Bool :=
  if h : index ≥ kRegisterCount32 then
    (self, false)
  else
    ({ self with reg32_ := Function.update self.reg32_ ⟨index, Nat.lt_of_not_ge h⟩ value }, true)

/-- The method `RegisterFile::write64`: the register file after the call and
the returned flag. -/
def write64 (self : RegisterFile) (index : Nat) (value : Nat) : RegisterFile × Bool :=
  if h : index ≥ kRegisterCount64 then
    (self, false)
  else
    ({ self with reg64_ := Function.update self.reg64_ ⟨index, Nat.lt_of_not_ge h⟩ value }, true)

/-- The method `RegisterFile::clear`. -/
def clear (_self : RegisterFile) : RegisterFile :=
  { reg32_ := fun _ => 0, reg64_ := fun _ => 0 }

end RegisterFile

/-- One call of a mutating method of `RegisterFile`, with its arguments. -/
inductive RegisterCall where
  | write32 (index : Nat) (value : Nat)
  | write64 (index : Nat) (value : Nat)
  | clear
deriving DecidableEq, Repr

/-- The register file after one mutating call (the returned flag of a write
is dropped). -/
def RegisterFile.perform (self : RegisterFile) : RegisterCall → RegisterFile
  | RegisterCall.write32 index value => (self.write32 index value).1
  | RegisterCall.write64 index value => (self.write64 index value).1
  | RegisterCall.clear => self.clear

/-- The register file after a sequence of mutating calls, made in order. -/
def RegisterFile.run (self : RegisterFile) (calls : List RegisterCall) : RegisterFile :=
  calls.foldl RegisterFile.perform self

/-! ## include/fpu/opcode_ram.hpp, src/opcode_ram.cpp -/

/-- The constant `kOpcodeRamSize`. -/
def kOpcodeRamSize : Nat := 1024

/-- The struct `Opcode`. The field `kind` is the raw byte of the
`enum class OpcodeKind : uint8_t` (`Nop = 0x00`, `Load32 = 0x10`,
`Load64 = 0x11`, `Store32 = 0x12`, `Store64 = 0x13`, `ExecuteOp = 0x20`). -/
structure Opcode where
  kind : Nat
  operand0 : Nat
  operand1 : Nat
  operand2 : Nat
deriving DecidableEq, Repr

namespace OpcodeKind

def Nop : Nat := 0x00
def Load32 : Nat := 0x10
def Load64 : Nat := 0x11
def Store32 : Nat := 0x12
def Store64 : Nat := 0x13
def ExecuteOp : Nat := 0x20

end OpcodeKind

/-- The value `Opcode{}`: the default member initialisers. -/
def Opcode.default : Opcode :=
  { kind := OpcodeKind.Nop, operand0 := 0, operand1 := 0, operand2 := 0 }

/-- The class `OpcodeRam`: the private array. -/
structure OpcodeRam where
  storage_ : Fin kOpcodeRamSize → Opcode

namespace OpcodeRam

/-- The default member initialiser `storage_{}`. -/
def init : OpcodeRam :=
  { storage_ := fun _ => Opcode.default }

/-- The method `OpcodeRam::capacity`. -/
def capacity (_self : OpcodeRam) : Nat := kOpcodeRamSize

/-- The method `OpcodeRam::write`: the store after the call and the returned
flag. -/
def write (self : OpcodeRam) (index : Nat) (opcode : Opcode) : OpcodeRam × Bool :=
  if h : index ≥ kOpcodeRamSize then
    (self, false)
  else
    ({ storage_ := Function.update self.storage_ ⟨index, Nat.lt_of_not_ge h⟩ opcode }, true)

/-- The method `OpcodeRam::read`. -/
def read (self : OpcodeRam) (index : Nat) : Option Opcode :=
  if h : index ≥ kOpcodeRamSize then
    none
  else
    some (self.storage_ ⟨index, Nat.lt_of_not_ge h⟩)

/-- The method `OpcodeRam::clear`. -/
def clear (_self : OpcodeRam) : OpcodeRam :=
  { storage_ := fun _ => Opcode.default }

end OpcodeRam

/-! ## include/fpu/operations.hpp, src/operations.cpp -/

/-- The types `float` and `double` as the dispatcher uses them: the two
directions of `std::bit_cast` between a word and a floating-point value, the
four arithmetic operators of each width, and `std::sin`, `std::cos`,
`std::tan`, `std::sqrt` on `double`. -/
structure FloatModel where
  Float32 : Type
  Float64 : Type
  bit_cast_float : Nat → Float32
  bit_cast_Word32 : Float32 → Nat
  bit_cast_double : Nat → Float64
  bit_cast_Word64 : Float64 → Nat
  add32 : Float32 → Float32 → Float32
  sub32 : Float32 → Float32 → Float32
  mul32 : Float32 → Float32 → Float32
  div32 : Float32 → Float32 → Float32
  add64 : Float64 → Float64 → Float64
  sub64 : Float64 → Float64 → Float64
  mul64 : Float64 → Float64 → Float64
  div64 : Float64 → Float64 → Float64
  sin : Float64 → Float64
  cos : Float64 → Float64
  tan : Float64 → Float64
  sqrt : Float64 → Float64

namespace OperationId

def Add32 : Nat := 0
def Sub32 : Nat := 1
def Mul32 : Nat := 2
def Div32 : Nat := 3
def Add64 : Nat := 4
def Sub64 : Nat := 5
def Mul64 : Nat := 6
def Div64 : Nat := 7
def Sine64 : Nat := 8
def Cosine64 : Nat := 9
def Tangent64 : Nat := 10
def SquareRoot64 : Nat := 11

end OperationId

/-- The struct `OperationRequest`. The field `id` is the raw byte of the
`enum class OperationId : uint8_t`. -/
structure OperationRequest where
  id : Nat
  destination : Nat
  source0 : Nat
  source1 : Nat
deriving DecidableEq, Repr

/-- The struct `OperationResult`. -/
structure OperationResult where
  ok : Bool
  error : Option String
deriving DecidableEq, Repr

/-- The helper `load_f32`. -/
def load_f32 (M : FloatModel) (registers : RegisterFile) (index : Nat) : Option M.Float32 :=
  match registers.read32 index with
  | none => none
  | some raw => some (M.bit_cast_float raw)

/-- The helper `load_f64`. -/
def load_f64 (M : FloatModel) (registers : RegisterFile) (index : Nat) : Option M.Float64 :=
  match registers.read64 index with
  | none => none
  | some raw => some (M.bit_cast_double raw)

/-- The helper `write_f32`. -/
def write_f32 (M : FloatModel) (registers : RegisterFile) (index : Nat) (value : M.Float32) :
    RegisterFile × OperationResult :=
  let raw := M.bit_cast_Word32 value
  let r := registers.write32 index raw
  if !r.2 then
    (r.1, { ok := false, error := some "destination register out of range" })
  else
    (r.1, { ok := true, error := none })

/-- The helper `write_f64`. -/
def write_f64 (M : FloatModel) (registers : RegisterFile) (index : Nat) (value : M.Float64) :
    RegisterFile × OperationResult :=
  let raw := M.bit_cast_Word64 value
  let r := registers.write64 index raw
  if !r.2 then
    (r.1, { ok := false, error := some "destination register out of range" })
  else
    (r.1, { ok := true, error := none })

namespace OperationDispatcher

/-- The method `OperationDispatcher::execute`. The dispatcher holds a
reference to the register file, so the call takes the register file and
returns it next to the result. -/
def execute (M : FloatModel) (registers_ : RegisterFile) (request : OperationRequest) :
    RegisterFile × OperationResult :=
  match request.id with
  | 0 => -- OperationId::Add32
    match load_f32 M registers_ request.source0, load_f32 M registers_ request.source1 with
    | some a, some b => write_f32 M registers_ request.destination (M.add32 a b)
    | _, _ => (registers_, { ok := false, error := some "source register out of range" })
  | 1 => -- OperationId::Sub32
    match load_f32 M registers_ request.source0, load_f32 M registers_ request.source1 with
    | some a, some b => write_f32 M registers_ request.destination (M.sub32 a b)
    | _, _ => (registers_, { ok := false, error := some "source register out of range" })
  | 2 => -- OperationId::Mul32
    match load_f32 M registers_ request.source0, load_f32 M registers_ request.source1 with
    | some a, some b => write_f32 M registers_ request.destination (M.mul32 a b)
    | _, _ => (registers_, { ok := false, error := some "source register out of range" })
  | 3 => -- OperationId::Div32
    match load_f32 M registers_ request.source0, load_f32 M registers_ request.source1 with
    | some a, some b => write_f32 M registers_ request.destination (M.div32 a b)
    | _, _ => (registers_, { ok := false, error := some "source register out of range" })
  | 4 => -- OperationId::Add64
    match load_f64 M registers_ request.source0, load_f64 M registers_ request.source1 with
    | some a, some b => write_f64 M registers_ request.destination (M.add64 a b)
    | _, _ => (registers_, { ok := false, error := some "source register out of range" })
  | 5 => -- OperationId::Sub64
    match load_f64 M registers_ request.source0, load_f64 M registers_ request.source1 with
    | some a, some b => write_f64 M registers_ request.destination (M.sub64 a b)
    | _, _ => (registers_, { ok := false, error := some "source register out of range" })
  | 6 => -- OperationId::Mul64
    match load_f64 M registers_ request.source0, load_f64 M registers_ request.source1 with
    | some a, some b => write_f64 M registers_ request.destination (M.mul64 a b)
    | _, _ => (registers_, { ok := false, error := some "source register out of range" })
  | 7 => -- OperationId::Div64
    match load_f64 M registers_ request.source0, load_f64 M registers_ request.source1 with
    | some a, some b => write_f64 M registers_ request.destination (M.div64 a b)
    | _, _ => (registers_, { ok := false, error := some "source register out of range" })
  | 8 => -- OperationId::Sine64
    match load_f64 M registers_ request.source0 with
    | some a => write_f64 M registers_ request.destination (M.sin a)
    | none => (registers_, { ok := false, error := some "source register out of range" })
  | 9 => -- OperationId::Cosine64
    match load_f64 M registers_ request.source0 with
    | some a => write_f64 M registers_ request.destination (M.cos a)
    | none => (registers_, { ok := false, error := some "source register out of range" })
  | 10 => -- OperationId::Tangent64
    match load_f64 M registers_ request.source0 with
    | some a => write_f64 M registers_ request.destination (M.tan a)
    | none => (registers_, { ok := false, error := some "source register out of range" })
  | 11 => -- OperationId::SquareRoot64
    match load_f64 M registers_ request.source0 with
    | some a => write_f64 M registers_ request.destination (M.sqrt a)
    | none => (registers_, { ok := false, error := some "source register out of range" })
  | _ => (registers_, { ok := false, error := some "unsupported operation" })

end OperationDispatcher

/-- A `FloatModel` for evaluating the dispatcher on concrete inputs: a
floating-point value is represented by its word, the arithmetic operators are
those of unsigned words of the same width and the four `double` functions
return their argument. It is not IEEE-754 arithmetic; the theorems about
`execute` hold for every `FloatModel`. -/
def FloatModel.words : FloatModel :=
  { Float32 := Nat
    Float64 := Nat
    bit_cast_float := fun raw => raw
    bit_cast_Word32 := fun value => value
    bit_cast_double := fun raw => raw
    bit_cast_Word64 := fun value => value
    add32 := fun a b => (a + b) % 2 ^ 32
    sub32 := fun a b => (a + 2 ^ 32 - b % 2 ^ 32) % 2 ^ 32
    mul32 := fun a b => (a * b) % 2 ^ 32
    div32 := fun a b => (a / b) % 2 ^ 32
    add64 := fun a b => (a + b) % 2 ^ 64
    sub64 := fun a b => (a + 2 ^ 64 - b % 2 ^ 64) % 2 ^ 64
    mul64 := fun a b => (a * b) % 2 ^ 64
    div64 := fun a b => (a / b) % 2 ^ 64
    sin := fun a => a
    cos := fun a => a
    tan := fun a => a
    sqrt := fun a => a }

/-! ## include/fpu/bus_interface.hpp, include/fpu/system_context.hpp -/

/-- The enum `BusDirection`. -/
inductive BusDirection where
  | Read
  | Write
deriving DecidableEq, Repr

/-- The struct `BusSignals`. -/
structure BusSignals where
  enable : Bool
  write : Bool
  busy : Bool
deriving DecidableEq, Repr

/-- The struct `BusTransaction`: `address` is a `uint8_t`, `payload` a vector
of `uint8_t`. -/
structure BusTransaction where
  direction : BusDirection
  address : Nat
  payload : List Nat
deriving DecidableEq, Repr

/-- One call of a `BusInterface` method with an effect on the bus. -/
inductive BusCall where
  | respond (transaction : BusTransaction) (data : List Nat)
  | set_busy (busy : Bool)
deriving DecidableEq, Repr

/-- The class `PollingBus` of `src/main.cpp`, the bus behind
`SystemContext::bus`: its member `signals_` and the calls made on it so far,
oldest first. -/
structure PollingBus where
  signals_ : BusSignals
  calls : List BusCall
deriving DecidableEq, Repr

namespace PollingBus

/-- The member initialiser `signals_{}` and an empty call log. -/
def init : PollingBus :=
  { signals_ := { enable := false, write := false, busy := false }, calls := [] }

/-- The method `respond`: inherited from `MockBusInterface`, it changes no
member; the call is recorded. -/
def respond (self : PollingBus) (transaction : BusTransaction) (data : List Nat) : PollingBus :=
  { self with calls := self.calls ++ [BusCall.respond transaction data] }

/-- The method `PollingBus::set_busy`. -/
def set_busy (self : PollingBus) (busy : Bool) : PollingBus :=
  { signals_ := { self.signals_ with busy := busy },
    calls := self.calls ++ [BusCall.set_busy busy] }

end PollingBus

/-- The struct `SystemContext`. The member `dispatcher` is a reference to
`registers` and has no state of its own; `bus` is the object the pointer
refers to. -/
structure SystemContext where
  registers : RegisterFile
  opcode_ram : OpcodeRam
  bus : PollingBus

/-- The context `main` hands to `run_bus_loop`: default-constructed members,
then `registers.clear()` and `opcode_ram.clear()`. -/
def SystemContext.init : SystemContext :=
  { registers := RegisterFile.init.clear, opcode_ram := OpcodeRam.init.clear,
    bus := PollingBus.init }

/-! ## src/main.cpp -/

/-- The first loop of `handle_transaction`, for a word of `size` bytes held in
an unsigned type of `8 * size` bits:
`for (i = 0; i < sizeof(word); ++i) word |= static_cast<Word>(payload[i]) << (8 * i);`
starting from `word{}`. -/
def assemble_word (size : Nat) (payload : List Nat) : Nat :=
  (List.range size).foldl
    (fun word i => word ||| (payload.getD i 0 <<< (8 * i)) % 2 ^ (8 * size)) 0

/-- The loop of the read branch of `handle_transaction`:
`data[i] = static_cast<uint8_t>((word >> (8 * i)) & 0xFF)` for every index of
a vector of `size` bytes. -/
def serialize_word (size : Nat) (word : Nat) : List Nat :=
  (List.range size).map (fun i => ((word >>> (8 * i)) &&& 0xFF) % 2 ^ 8)

/-- The function `handle_transaction`: the context after the call and the
returned flag. Here `sizeof(RegisterFile::Word32)` is 4 and
`sizeof(RegisterFile::Word64)` is 8. -/
def handle_transaction (context : SystemContext) (tx : BusTransaction) : SystemContext × Bool :=
  if tx.direction = BusDirection.Write then
    if tx.payload.length = 4 then
      let word := assemble_word 4 tx.payload
      let r := context.registers.write32 tx.address word
      ({ context with registers := r.1 }, r.2)
    else if tx.payload.length = 8 then
      let word := assemble_word 8 tx.payload
      let r := context.registers.write64 tx.address word
      ({ context with registers := r.1 }, r.2)
    else
      (context, false)
  else
    if tx.payload.isEmpty then
      match context.registers.read32 tx.address with
      | some word =>
        let data := serialize_word 4 word
        ({ context with bus := context.bus.respond tx data }, true)
      | none => (context, false)
    else
      (context, false)

/-- One pass through the body of the `while (true)` loop of `run_bus_loop`,
given what `context.bus->poll()` returned. -/
def run_bus_loop_body (context : SystemContext) (transaction : Option BusTransaction) :
    SystemContext :=
  match transaction with
  | some tx =>
    let c1 := { context with bus := context.bus.set_busy true }
    let c2 := (handle_transaction c1 tx).1
    { c2 with bus := c2.bus.set_busy false }
  | none => context

/-! ## Register file: access lemmas -/

namespace RegisterFile

theorem read32_of_lt (self : RegisterFile) {index : Nat} (h : index < kRegisterCount32) :
    self.read32 index = some (self.reg32_ ⟨index, h⟩) := by
  simp [read32, Nat.not_le.mpr h]

theorem read64_of_lt (self : RegisterFile) {index : Nat} (h : index < kRegisterCount64) :
    self.read64 index = some (self.reg64_ ⟨index, h⟩) := by
  simp [read64, Nat.not_le.mpr h]

theorem read32_of_ge (self : RegisterFile) {index : Nat} (h : kRegisterCount32 ≤ index) :
    self.read32 index = none := by
  simp [read32, h]

theorem read64_of_ge (self : RegisterFile) {index : Nat} (h : kRegisterCount64 ≤ index) :
    self.read64 index = none := by
  simp [read64, h]

theorem write32_of_lt (self : RegisterFile) {index : Nat} (h : index < kRegisterCount32)
    (value : Nat) :
    self.write32 index value =
      ({ self with reg32_ := Function.update self.reg32_ ⟨index, h⟩ value }, true) := by
  simp [write32, Nat.not_le.mpr h]

theorem write64_of_lt (self : RegisterFile) {index : Nat} (h : index < kRegisterCount64)
    (value : Nat) :
    self.write64 index value =
      ({ self with reg64_ := Function.update self.reg64_ ⟨index, h⟩ value }, true) := by
  simp [write64, Nat.not_le.mpr h]

theorem write32_of_ge (self : RegisterFile) {index : Nat} (h : kRegisterCount32 ≤ index)
    (value : Nat) : self.write32 index value = (self, false) := by
  simp [write32, h]

theorem write64_of_ge (self : RegisterFile) {index : Nat} (h : kRegisterCount64 ≤ index)
    (value : Nat) : self.write64 index value = (self, false) := by
  simp [write64, h]

end RegisterFile

/-! ## Register file: contract -/

/-- C1. For every register file, every index below 256 and every word `v`,
`write32(index, v)` returns true and a following `read32(index)` returns `v`;
likewise `write64(index, w)` returns true and a following `read64(index)`
returns `w`. -/
theorem register_write_read_roundtrip (rf : RegisterFile) (index v w : Nat)
    (h : index < 256) :
    (rf.write32 index v).2 = true ∧ (rf.write32 index v).1.read32 index = some v ∧
    (rf.write64 index w).2 = true ∧ (rf.write64 index w).1.read64 index = some w := by
  have h32 : index < kRegisterCount32 := h
  have h64 : index < kRegisterCount64 := h
  rw [rf.write32_of_lt h32, rf.write64_of_lt h64]
  refine ⟨rfl, ?_, rfl, ?_⟩
  · rw [RegisterFile.read32_of_lt _ h32]
    simp
  · rw [RegisterFile.read64_of_lt _ h64]
    simp

/-- Witness of C1: register 3, the words `0x3F800000` and
`0x3FF0000000000000`. -/
theorem register_write_read_roundtrip_witness :
    (3 : Nat) < 256 ∧
    ((RegisterFile.init.write32 3 0x3F800000).2 = true ∧
      (RegisterFile.init.write32 3 0x3F800000).1.read32 3 = some 0x3F800000 ∧
      (RegisterFile.init.write64 3 0x3FF0000000000000).2 = true ∧
      (RegisterFile.init.write64 3 0x3FF0000000000000).1.read64 3 =
        some 0x3FF0000000000000) :=
  ⟨by decide, register_write_read_roundtrip RegisterFile.init 3 0x3F800000
    0x3FF0000000000000 (by decide)⟩

/-- C2. For every register file and every index of 256 or more, `read32` and
`read64` return absent, `write32` and `write64` return false, and the register
file after such a write is the register file before it (both arrays). -/
theorem register_out_of_range (rf : RegisterFile) (index v w : Nat) (h : 256 ≤ index) :
    rf.read32 index = none ∧ rf.read64 index = none ∧
    (rf.write32 index v).2 = false ∧ (rf.write64 index w).2 = false ∧
    (rf.write32 index v).1 = rf ∧ (rf.write64 index w).1 = rf := by
  have h32 : kRegisterCount32 ≤ index := h
  have h64 : kRegisterCount64 ≤ index := h
  rw [rf.write32_of_ge h32, rf.write64_of_ge h64]
  exact ⟨rf.read32_of_ge h32, rf.read64_of_ge h64, rfl, rfl, rfl, rfl⟩

/-- Witness of C2: index 256 on the initial register file. -/
theorem register_out_of_range_witness :
    (256 : Nat) ≤ 256 ∧
    (RegisterFile.init.read32 256 = none ∧ RegisterFile.init.read64 256 = none ∧
      (RegisterFile.init.write32 256 7).2 = false ∧
      (RegisterFile.init.write64 256 9).2 = false ∧
      (RegisterFile.init.write32 256 7).1 = RegisterFile.init ∧
      (RegisterFile.init.write64 256 9).1 = RegisterFile.init) :=
  ⟨by decide, register_out_of_range RegisterFile.init 256 7 9 (by decide)⟩

/-! ## Bus handler: byte assembly and serialisation -/

theorem or_mul_two_pow_eq_add {x : Nat} (b k : Nat) (hx : x < 2 ^ k) :
    x ||| (b * 2 ^ k) = x + b * 2 ^ k := by
  rw [Nat.or_comm, Nat.mul_comm, ← Nat.mul_add_lt_is_or hx, Nat.add_comm]

theorem shiftLeft_mod_of_lt {b k w : Nat} (h : b * 2 ^ k < 2 ^ w) :
    (b <<< k) % 2 ^ w = b * 2 ^ k := by
  rw [Nat.shiftLeft_eq]
  exact Nat.mod_eq_of_lt h

theorem and_0xFF (x : Nat) : x &&& 0xFF = x % 256 :=
  Nat.and_pow_two_sub_one_eq_mod x 8

/-- The 32-bit assembly loop on four bytes is the little-endian sum. -/
theorem assemble_word_four (b0 b1 b2 b3 : Nat) (h0 : b0 < 256) (h1 : b1 < 256)
    (h2 : b2 < 256) (h3 : b3 < 256) :
    assemble_word 4 [b0, b1, b2, b3] = b0 + 2 ^ 8 * b1 + 2 ^ 16 * b2 + 2 ^ 24 * b3 := by
  have e0 : b0 % 2 ^ 32 = b0 := Nat.mod_eq_of_lt (by omega)
  have e1 : (b1 <<< 8) % 2 ^ 32 = b1 * 2 ^ 8 := shiftLeft_mod_of_lt (by omega)
  have e2 : (b2 <<< 16) % 2 ^ 32 = b2 * 2 ^ 16 := shiftLeft_mod_of_lt (by omega)
  have e3 : (b3 <<< 24) % 2 ^ 32 = b3 * 2 ^ 24 := shiftLeft_mod_of_lt (by omega)
  simp only [assemble_word, List.range_succ, List.range_zero, List.nil_append,
    List.cons_append, List.foldl_cons, List.foldl_nil, List.getD_cons_zero,
    List.getD_cons_succ, Nat.mul_zero, Nat.shiftLeft_zero, Nat.zero_or, Nat.mul_one,
    Nat.reduceMul, e0, e1, e2, e3]
  rw [or_mul_two_pow_eq_add b1 8 (by omega), or_mul_two_pow_eq_add b2 16 (by omega),
    or_mul_two_pow_eq_add b3 24 (by omega)]
  omega

/-- The 64-bit assembly loop on eight bytes is the little-endian sum. -/
theorem assemble_word_eight (b0 b1 b2 b3 b4 b5 b6 b7 : Nat) (h0 : b0 < 256)
    (h1 : b1 < 256) (h2 : b2 < 256) (h3 : b3 < 256) (h4 : b4 < 256) (h5 : b5 < 256)
    (h6 : b6 < 256) (h7 : b7 < 256) :
    assemble_word 8 [b0, b1, b2, b3, b4, b5, b6, b7] =
      b0 + 2 ^ 8 * b1 + 2 ^ 16 * b2 + 2 ^ 24 * b3 + 2 ^ 32 * b4 + 2 ^ 40 * b5 +
        2 ^ 48 * b6 + 2 ^ 56 * b7 := by
  have e0 : b0 % 2 ^ 64 = b0 := Nat.mod_eq_of_lt (by omega)
  have e1 : (b1 <<< 8) % 2 ^ 64 = b1 * 2 ^ 8 := shiftLeft_mod_of_lt (by omega)
  have e2 : (b2 <<< 16) % 2 ^ 64 = b2 * 2 ^ 16 := shiftLeft_mod_of_lt (by omega)
  have e3 : (b3 <<< 24) % 2 ^ 64 = b3 * 2 ^ 24 := shiftLeft_mod_of_lt (by omega)
  have e4 : (b4 <<< 32) % 2 ^ 64 = b4 * 2 ^ 32 := shiftLeft_mod_of_lt (by omega)
  have e5 : (b5 <<< 40) % 2 ^ 64 = b5 * 2 ^ 40 := shiftLeft_mod_of_lt (by omega)
  have e6 : (b6 <<< 48) % 2 ^ 64 = b6 * 2 ^ 48 := shiftLeft_mod_of_lt (by omega)
  have e7 : (b7 <<< 56) % 2 ^ 64 = b7 * 2 ^ 56 := shiftLeft_mod_of_lt (by omega)
  simp only [assemble_word, List.range_succ, List.range_zero, List.nil_append,
    List.cons_append, List.foldl_cons, List.foldl_nil, List.getD_cons_zero,
    List.getD_cons_succ, Nat.mul_zero, Nat.shiftLeft_zero, Nat.zero_or, Nat.mul_one,
    Nat.reduceMul, e0, e1, e2, e3, e4, e5, e6, e7]
  rw [or_mul_two_pow_eq_add b1 8 (by omega), or_mul_two_pow_eq_add b2 16 (by omega),
    or_mul_two_pow_eq_add b3 24 (by omega), or_mul_two_pow_eq_add b4 32 (by omega),
    or_mul_two_pow_eq_add b5 40 (by omega), or_mul_two_pow_eq_add b6 48 (by omega),
    or_mul_two_pow_eq_add b7 56 (by omega)]
  omega

/-- The serialisation loop on a 4-byte vector, byte by byte. -/
theorem serialize_word_four (word : Nat) :
    serialize_word 4 word =
      [(word >>> 0) &&& 0xFF, (word >>> 8) &&& 0xFF, (word >>> 16) &&& 0xFF,
        (word >>> 24) &&& 0xFF] := by
  simp only [serialize_word, List.range_succ, List.range_zero, List.nil_append,
    List.cons_append, List.map_cons, List.map_nil, and_0xFF, Nat.mul_zero, Nat.mul_one,
    Nat.reduceMul, Nat.reducePow, Nat.mod_mod]

/-- Serialising the little-endian sum of four bytes gives the bytes back. -/
theorem serialize_little_endian_sum (b0 b1 b2 b3 : Nat) (h0 : b0 < 256) (h1 : b1 < 256)
    (h2 : b2 < 256) (h3 : b3 < 256) :
    serialize_word 4 (b0 + 2 ^ 8 * b1 + 2 ^ 16 * b2 + 2 ^ 24 * b3) = [b0, b1, b2, b3] := by
  simp only [serialize_word_four, and_0xFF, Nat.shiftRight_eq_div_pow, Nat.reducePow]
  have c0 : (b0 + 256 * b1 + 65536 * b2 + 16777216 * b3) / 1 % 256 = b0 := by omega
  have c1 : (b0 + 256 * b1 + 65536 * b2 + 16777216 * b3) / 256 % 256 = b1 := by omega
  have c2 : (b0 + 256 * b1 + 65536 * b2 + 16777216 * b3) / 65536 % 256 = b2 := by omega
  have c3 : (b0 + 256 * b1 + 65536 * b2 + 16777216 * b3) / 16777216 % 256 = b3 := by omega
  rw [c0, c1, c2, c3]

/-! ## Bus handler: the three recognised transaction shapes -/

/-- A 4-byte Write at an 8-bit address stores the assembled word and returns
true; nothing else of the context changes. -/
theorem handle_transaction_write4 (context : SystemContext) (a b0 b1 b2 b3 : Nat)
    (ha : a < kRegisterCount32) :
    handle_transaction context ⟨BusDirection.Write, a, [b0, b1, b2, b3]⟩ =
      ({ context with
          registers := { context.registers with
            reg32_ := Function.update context.registers.reg32_ ⟨a, ha⟩
              (assemble_word 4 [b0, b1, b2, b3]) } }, true) := by
  simp [handle_transaction, RegisterFile.write32_of_lt _ ha]

/-- An 8-byte Write at an 8-bit address stores the assembled word and returns
true; nothing else of the context changes. -/
theorem handle_transaction_write8 (context : SystemContext)
    (a b0 b1 b2 b3 b4 b5 b6 b7 : Nat) (ha : a < kRegisterCount64) :
    handle_transaction context ⟨BusDirection.Write, a, [b0, b1, b2, b3, b4, b5, b6, b7]⟩ =
      ({ context with
          registers := { context.registers with
            reg64_ := Function.update context.registers.reg64_ ⟨a, ha⟩
              (assemble_word 8 [b0, b1, b2, b3, b4, b5, b6, b7]) } }, true) := by
  simp [handle_transaction, RegisterFile.write64_of_lt _ ha]

/-- A Read with an empty payload at an 8-bit address responds with the
serialised 32-bit register and returns true. -/
theorem handle_transaction_read0 (context : SystemContext) (a : Nat)
    (ha : a < kRegisterCount32) :
    handle_transaction context ⟨BusDirection.Read, a, []⟩ =
      ({ context with
          bus := context.bus.respond ⟨BusDirection.Read, a, []⟩
            (serialize_word 4 (context.registers.reg32_ ⟨a, ha⟩)) }, true) := by
  simp [handle_transaction, RegisterFile.read32_of_lt _ ha]

/-- C3. For every context, every 8-bit address `a` and every payload of four
bytes, handling the Write (which returns true and leaves the 32-bit register
`a` holding the little-endian word of the payload) and then a Read at `a` with
an empty payload (which returns true) adds exactly one call to the bus: a
response to that Read whose data is the payload, byte for byte. -/
theorem bus_write_then_read_roundtrip (context : SystemContext) (a b0 b1 b2 b3 : Nat)
    (ha : a < 256) (h0 : b0 < 256) (h1 : b1 < 256) (h2 : b2 < 256) (h3 : b3 < 256) :
    (handle_transaction context ⟨BusDirection.Write, a, [b0, b1, b2, b3]⟩).2 = true ∧
    (handle_transaction context ⟨BusDirection.Write, a, [b0, b1, b2, b3]⟩).1.registers.read32 a
      = some (b0 + 2 ^ 8 * b1 + 2 ^ 16 * b2 + 2 ^ 24 * b3) ∧
    (handle_transaction context ⟨BusDirection.Write, a, [b0, b1, b2, b3]⟩).1.bus
      = context.bus ∧
    (handle_transaction
        (handle_transaction context ⟨BusDirection.Write, a, [b0, b1, b2, b3]⟩).1
        ⟨BusDirection.Read, a, []⟩).2 = true ∧
    (handle_transaction
        (handle_transaction context ⟨BusDirection.Write, a, [b0, b1, b2, b3]⟩).1
        ⟨BusDirection.Read, a, []⟩).1.bus.calls
      = context.bus.calls ++
          [BusCall.respond ⟨BusDirection.Read, a, []⟩ [b0, b1, b2, b3]] := by
  have ha32 : a < kRegisterCount32 := ha
  rw [handle_transaction_read0 _ a ha32, handle_transaction_write4 context a b0 b1 b2 b3 ha32,
    assemble_word_four b0 b1 b2 b3 h0 h1 h2 h3]
  refine ⟨rfl, ?_, rfl, rfl, ?_⟩
  · rw [RegisterFile.read32_of_lt _ ha32]
    simp
  · simp only [PollingBus.respond, Function.update_same]
    rw [serialize_little_endian_sum b0 b1 b2 b3 h0 h1 h2 h3]

/-- Witness of C3: the payload `[0x00, 0x00, 0x80, 0x3F]` written to address 3
of the start-up context leaves `0x3F800000` in the 32-bit register 3, and the
Read at address 3 responds `[0x00, 0x00, 0x80, 0x3F]`. -/
theorem bus_write_then_read_roundtrip_witness :
    ((3 : Nat) < 256 ∧ (0x00 : Nat) < 256 ∧ (0x80 : Nat) < 256 ∧ (0x3F : Nat) < 256) ∧
    ((handle_transaction SystemContext.init
        ⟨BusDirection.Write, 3, [0x00, 0x00, 0x80, 0x3F]⟩).2 = true ∧
      (handle_transaction SystemContext.init
        ⟨BusDirection.Write, 3, [0x00, 0x00, 0x80, 0x3F]⟩).1.registers.read32 3
        = some 0x3F800000 ∧
      (handle_transaction SystemContext.init
        ⟨BusDirection.Write, 3, [0x00, 0x00, 0x80, 0x3F]⟩).1.bus = SystemContext.init.bus ∧
      (handle_transaction
        (handle_transaction SystemContext.init
          ⟨BusDirection.Write, 3, [0x00, 0x00, 0x80, 0x3F]⟩).1
        ⟨BusDirection.Read, 3, []⟩).2 = true ∧
      (handle_transaction
        (handle_transaction SystemContext.init
          ⟨BusDirection.Write, 3, [0x00, 0x00, 0x80, 0x3F]⟩).1
        ⟨BusDirection.Read, 3, []⟩).1.bus.calls
        = SystemContext.init.bus.calls ++
            [BusCall.respond ⟨BusDirection.Read, 3, []⟩ [0x00, 0x00, 0x80, 0x3F]]) :=
  ⟨by decide, bus_write_then_read_roundtrip SystemContext.init 3 0x00 0x00 0x80 0x3F
    (by decide) (by decide) (by decide) (by decide) (by decide)⟩

/-- C4. For every context, every 8-bit address `a` and every payload
`[b0, b1, b2, b3]` of bytes, handling the Write sets the 32-bit register `a` to
`b0 + 2^8 * b1 + 2^16 * b2 + 2^24 * b3`, makes no call on the bus, and leaves
every other 32-bit register, the whole 64-bit array and the opcode store as
they were. -/
theorem bus_write32_little_endian (context : SystemContext) (a b0 b1 b2 b3 : Nat)
    (ha : a < 256) (h0 : b0 < 256) (h1 : b1 < 256) (h2 : b2 < 256) (h3 : b3 < 256) :
    (handle_transaction context ⟨BusDirection.Write, a, [b0, b1, b2, b3]⟩).1.registers.read32 a
      = some (b0 + 2 ^ 8 * b1 + 2 ^ 16 * b2 + 2 ^ 24 * b3) ∧
    (handle_transaction context ⟨BusDirection.Write, a, [b0, b1, b2, b3]⟩).1.bus
      = context.bus ∧
    (∀ j : Nat, j ≠ a →
      (handle_transaction context
          ⟨BusDirection.Write, a, [b0, b1, b2, b3]⟩).1.registers.read32 j
        = context.registers.read32 j) ∧
    (handle_transaction context ⟨BusDirection.Write, a, [b0, b1, b2, b3]⟩).1.registers.reg64_
      = context.registers.reg64_ ∧
    (handle_transaction context ⟨BusDirection.Write, a, [b0, b1, b2, b3]⟩).1.opcode_ram
      = context.opcode_ram := by
  have ha32 : a < kRegisterCount32 := ha
  rw [handle_transaction_write4 context a b0 b1 b2 b3 ha32,
    assemble_word_four b0 b1 b2 b3 h0 h1 h2 h3]
  refine ⟨?_, rfl, ?_, rfl, rfl⟩
  · rw [RegisterFile.read32_of_lt _ ha32]
    simp
  · intro j hj
    by_cases hlt : j < kRegisterCount32
    · rw [RegisterFile.read32_of_lt _ hlt, RegisterFile.read32_of_lt _ hlt]
      have hne : (⟨j, hlt⟩ : Fin kRegisterCount32) ≠ ⟨a, ha32⟩ := by
        intro hEq
        exact hj (congrArg Fin.val hEq)
      simp [Function.update_noteq hne]
    · rw [RegisterFile.read32_of_ge _ (Nat.le_of_not_lt hlt),
        RegisterFile.read32_of_ge _ (Nat.le_of_not_lt hlt)]

/-- Witness of C4: the payload `[0x78, 0x56, 0x34, 0x12]` at address 255 of the
start-up context. -/
theorem bus_write32_little_endian_witness :
    ((255 : Nat) < 256 ∧ (0x78 : Nat) < 256 ∧ (0x56 : Nat) < 256 ∧ (0x34 : Nat) < 256 ∧
      (0x12 : Nat) < 256) ∧
    ((handle_transaction SystemContext.init
        ⟨BusDirection.Write, 255, [0x78, 0x56, 0x34, 0x12]⟩).1.registers.read32 255
        = some 0x12345678 ∧
      (handle_transaction SystemContext.init
        ⟨BusDirection.Write, 255, [0x78, 0x56, 0x34, 0x12]⟩).1.bus = SystemContext.init.bus ∧
      (∀ j : Nat, j ≠ 255 →
        (handle_transaction SystemContext.init
            ⟨BusDirection.Write, 255, [0x78, 0x56, 0x34, 0x12]⟩).1.registers.read32 j
          = SystemContext.init.registers.read32 j) ∧
      (handle_transaction SystemContext.init
        ⟨BusDirection.Write, 255, [0x78, 0x56, 0x34, 0x12]⟩).1.registers.reg64_
        = SystemContext.init.registers.reg64_ ∧
      (handle_transaction SystemContext.init
        ⟨BusDirection.Write, 255, [0x78, 0x56, 0x34, 0x12]⟩).1.opcode_ram
        = SystemContext.init.opcode_ram) :=
  ⟨by decide, bus_write32_little_endian SystemContext.init 255 0x78 0x56 0x34 0x12
    (by decide) (by decide) (by decide) (by decide) (by decide)⟩

/-- C5. For every context, every 8-bit address `a` and every payload
`[b0, ..., b7]` of bytes, handling the Write sets the 64-bit register `a` to
the sum of `b_i * 2^(8*i)` for `i = 0..7`, makes no call on the bus, and leaves
the whole 32-bit array (register `a` of it included), every other 64-bit
register and the opcode store as they were. -/
theorem bus_write64_little_endian (context : SystemContext)
    (a b0 b1 b2 b3 b4 b5 b6 b7 : Nat) (ha : a < 256) (h0 : b0 < 256) (h1 : b1 < 256)
    (h2 : b2 < 256) (h3 : b3 < 256) (h4 : b4 < 256) (h5 : b5 < 256) (h6 : b6 < 256)
    (h7 : b7 < 256) :
    (handle_transaction context
        ⟨BusDirection.Write, a, [b0, b1, b2, b3, b4, b5, b6, b7]⟩).1.registers.read64 a
      = some (b0 + 2 ^ 8 * b1 + 2 ^ 16 * b2 + 2 ^ 24 * b3 + 2 ^ 32 * b4 + 2 ^ 40 * b5 +
          2 ^ 48 * b6 + 2 ^ 56 * b7) ∧
    (handle_transaction context
        ⟨BusDirection.Write, a, [b0, b1, b2, b3, b4, b5, b6, b7]⟩).1.bus = context.bus ∧
    (handle_transaction context
        ⟨BusDirection.Write, a, [b0, b1, b2, b3, b4, b5, b6, b7]⟩).1.registers.reg32_ = context.registers.reg32_ ∧
    (∀ j : Nat, j ≠ a → (handle_transaction context
        ⟨BusDirection.Write, a, [b0, b1, b2, b3, b4, b5, b6, b7]⟩).1.registers.read64 j = context.registers.read64 j) ∧
    (handle_transaction context
        ⟨BusDirection.Write, a, [b0, b1, b2, b3, b4, b5, b6, b7]⟩).1.opcode_ram = context.opcode_ram := by
  have ha64 : a < kRegisterCount64 := ha
  rw [handle_transaction_write8 context a b0 b1 b2 b3 b4 b5 b6 b7 ha64,
    assemble_word_eight b0 b1 b2 b3 b4 b5 b6 b7 h0 h1 h2 h3 h4 h5 h6 h7]
  refine ⟨?_, rfl, rfl, ?_, rfl⟩
  · rw [RegisterFile.read64_of_lt _ ha64]
    simp
  · intro j hj
    by_cases hlt : j < kRegisterCount64
    · rw [RegisterFile.read64_of_lt _ hlt, RegisterFile.read64_of_lt _ hlt]
      have hne : (⟨j, hlt⟩ : Fin kRegisterCount64) ≠ ⟨a, ha64⟩ := by
        intro hEq
        exact hj (congrArg Fin.val hEq)
      simp [Function.update_noteq hne]
    · rw [RegisterFile.read64_of_ge _ (Nat.le_of_not_lt hlt),
        RegisterFile.read64_of_ge _ (Nat.le_of_not_lt hlt)]

/-- Witness of C5: the payload `[0xEF, 0xCD, 0xAB, 0x89, 0x67, 0x45, 0x23, 0x01]`
at address 5 of the start-up context. -/
theorem bus_write64_little_endian_witness :
    ((5 : Nat) < 256 ∧ (0xEF : Nat) < 256 ∧ (0xCD : Nat) < 256 ∧ (0xAB : Nat) < 256 ∧
      (0x89 : Nat) < 256 ∧ (0x67 : Nat) < 256 ∧ (0x45 : Nat) < 256 ∧ (0x23 : Nat) < 256 ∧
      (0x01 : Nat) < 256) ∧
    ((handle_transaction SystemContext.init
        ⟨BusDirection.Write, 5, [0xEF, 0xCD, 0xAB, 0x89, 0x67, 0x45, 0x23, 0x01]⟩).1.registers.read64 5 = some 0x0123456789ABCDEF ∧
      (handle_transaction SystemContext.init
        ⟨BusDirection.Write, 5, [0xEF, 0xCD, 0xAB, 0x89, 0x67, 0x45, 0x23, 0x01]⟩).1.bus = SystemContext.init.bus ∧
      (handle_transaction SystemContext.init
        ⟨BusDirection.Write, 5, [0xEF, 0xCD, 0xAB, 0x89, 0x67, 0x45, 0x23, 0x01]⟩).1.registers.reg32_ = SystemContext.init.registers.reg32_ ∧
      (∀ j : Nat, j ≠ 5 → (handle_transaction SystemContext.init
        ⟨BusDirection.Write, 5, [0xEF, 0xCD, 0xAB, 0x89, 0x67, 0x45, 0x23, 0x01]⟩).1.registers.read64 j = SystemContext.init.registers.read64 j) ∧
      (handle_transaction SystemContext.init
        ⟨BusDirection.Write, 5, [0xEF, 0xCD, 0xAB, 0x89, 0x67, 0x45, 0x23, 0x01]⟩).1.opcode_ram = SystemContext.init.opcode_ram) :=
  ⟨by decide, bus_write64_little_endian SystemContext.init 5 0xEF 0xCD 0xAB 0x89 0x67 0x45
    0x23 0x01 (by decide) (by decide) (by decide) (by decide) (by decide) (by decide)
    (by decide) (by decide) (by decide)⟩

/-- C6. For every context and every 8-bit address `a`, handling a Read with an
empty payload adds exactly one call to the bus, a response to that transaction
of exactly four bytes whose byte `i` is `(register32[a] >> 8*i) & 0xFF`; the
bus signals, the register file and the opcode store are as they were. -/
theorem bus_read32_response (context : SystemContext) (a : Nat) (ha : a < 256) :
    (handle_transaction context ⟨BusDirection.Read, a, []⟩).1.bus.calls
      = context.bus.calls ++
          [BusCall.respond ⟨BusDirection.Read, a, []⟩
            [(context.registers.reg32_ ⟨a, ha⟩ >>> 0) &&& 0xFF,
             (context.registers.reg32_ ⟨a, ha⟩ >>> 8) &&& 0xFF,
             (context.registers.reg32_ ⟨a, ha⟩ >>> 16) &&& 0xFF,
             (context.registers.reg32_ ⟨a, ha⟩ >>> 24) &&& 0xFF]] ∧
    (handle_transaction context ⟨BusDirection.Read, a, []⟩).1.bus.signals_
      = context.bus.signals_ ∧
    (handle_transaction context ⟨BusDirection.Read, a, []⟩).1.registers
      = context.registers ∧
    (handle_transaction context ⟨BusDirection.Read, a, []⟩).1.opcode_ram
      = context.opcode_ram := by
  have ha32 : a < kRegisterCount32 := ha
  rw [handle_transaction_read0 context a ha32, serialize_word_four]
  exact ⟨rfl, rfl, rfl, rfl⟩

/-- Witness of C6: a Read at address 0 of the start-up context. -/
theorem bus_read32_response_witness :
    (0 : Nat) < 256 ∧
    ((handle_transaction SystemContext.init ⟨BusDirection.Read, 0, []⟩).1.bus.calls
        = SystemContext.init.bus.calls ++
            [BusCall.respond ⟨BusDirection.Read, 0, []⟩
              [(SystemContext.init.registers.reg32_ ⟨0, by decide⟩ >>> 0) &&& 0xFF,
               (SystemContext.init.registers.reg32_ ⟨0, by decide⟩ >>> 8) &&& 0xFF,
               (SystemContext.init.registers.reg32_ ⟨0, by decide⟩ >>> 16) &&& 0xFF,
               (SystemContext.init.registers.reg32_ ⟨0, by decide⟩ >>> 24) &&& 0xFF]] ∧
      (handle_transaction SystemContext.init ⟨BusDirection.Read, 0, []⟩).1.bus.signals_
        = SystemContext.init.bus.signals_ ∧
      (handle_transaction SystemContext.init ⟨BusDirection.Read, 0, []⟩).1.registers
        = SystemContext.init.registers ∧
      (handle_transaction SystemContext.init ⟨BusDirection.Read, 0, []⟩).1.opcode_ram
        = SystemContext.init.opcode_ram) :=
  ⟨by decide, bus_read32_response SystemContext.init 0 (by decide)⟩

/-- C7. For every context and every transaction whose direction and payload
length are not (Write, 4), (Write, 8) or (Read, 0), `handle_transaction`
returns false and the context after the call is the context before it: no
call on the bus, register file and opcode store as they were. -/
theorem bus_malformed_dropped (context : SystemContext) (tx : BusTransaction)
    (h4 : ¬ (tx.direction = BusDirection.Write ∧ tx.payload.length = 4))
    (h8 : ¬ (tx.direction = BusDirection.Write ∧ tx.payload.length = 8))
    (h0 : ¬ (tx.direction = BusDirection.Read ∧ tx.payload.length = 0)) :
    handle_transaction context tx = (context, false) := by
  obtain ⟨direction, address, payload⟩ := tx
  cases direction with
  | Write =>
    have n4 : payload.length ≠ 4 := fun e => h4 ⟨rfl, e⟩
    have n8 : payload.length ≠ 8 := fun e => h8 ⟨rfl, e⟩
    simp [handle_transaction, n4, n8]
  | Read =>
    have n0 : payload ≠ [] := by
      intro e
      exact h0 ⟨rfl, by simp [e]⟩
    simp [handle_transaction, n0]

/-- Witness of C7: a Write of five bytes at address 3 of the start-up
context. -/
theorem bus_malformed_dropped_witness :
    (¬ ((⟨BusDirection.Write, 3, [1, 2, 3, 4, 5]⟩ : BusTransaction).direction
          = BusDirection.Write ∧
        (⟨BusDirection.Write, 3, [1, 2, 3, 4, 5]⟩ : BusTransaction).payload.length = 4) ∧
     ¬ ((⟨BusDirection.Write, 3, [1, 2, 3, 4, 5]⟩ : BusTransaction).direction
          = BusDirection.Write ∧
        (⟨BusDirection.Write, 3, [1, 2, 3, 4, 5]⟩ : BusTransaction).payload.length = 8) ∧
     ¬ ((⟨BusDirection.Write, 3, [1, 2, 3, 4, 5]⟩ : BusTransaction).direction
          = BusDirection.Read ∧
        (⟨BusDirection.Write, 3, [1, 2, 3, 4, 5]⟩ : BusTransaction).payload.length = 0)) ∧
    handle_transaction SystemContext.init ⟨BusDirection.Write, 3, [1, 2, 3, 4, 5]⟩
      = (SystemContext.init, false) :=
  ⟨by decide, bus_malformed_dropped SystemContext.init ⟨BusDirection.Write, 3, [1, 2, 3, 4, 5]⟩
    (by decide) (by decide) (by decide)⟩

/-! ## Operation dispatcher: helpers -/

theorem load_f32_of_lt (M : FloatModel) (rf : RegisterFile) {index : Nat}
    (h : index < kRegisterCount32) :
    load_f32 M rf index = some (M.bit_cast_float (rf.reg32_ ⟨index, h⟩)) := by
  simp [load_f32, rf.read32_of_lt h]

theorem load_f64_of_lt (M : FloatModel) (rf : RegisterFile) {index : Nat}
    (h : index < kRegisterCount64) :
    load_f64 M rf index = some (M.bit_cast_double (rf.reg64_ ⟨index, h⟩)) := by
  simp [load_f64, rf.read64_of_lt h]

theorem write_f32_of_lt (M : FloatModel) (rf : RegisterFile) {index : Nat}
    (h : index < kRegisterCount32) (value : M.Float32) :
    write_f32 M rf index value =
      ({ rf with reg32_ := Function.update rf.reg32_ ⟨index, h⟩ (M.bit_cast_Word32 value) },
        { ok := true, error := none }) := by
  simp [write_f32, rf.write32_of_lt h]

theorem write_f64_of_lt (M : FloatModel) (rf : RegisterFile) {index : Nat}
    (h : index < kRegisterCount64) (value : M.Float64) :
    write_f64 M rf index value =
      ({ rf with reg64_ := Function.update rf.reg64_ ⟨index, h⟩ (M.bit_cast_Word64 value) },
        { ok := true, error := none }) := by
  simp [write_f64, rf.write64_of_lt h]

/-- The helper `write_f32` touches the 32-bit register `index` at most. -/
theorem write_f32_frame (M : FloatModel) (rf : RegisterFile) (index : Nat)
    (value : M.Float32) :
    (write_f32 M rf index value).1.reg64_ = rf.reg64_ ∧
    ∀ i : Fin kRegisterCount32, i.val ≠ index →
      (write_f32 M rf index value).1.reg32_ i = rf.reg32_ i := by
  by_cases h : index < kRegisterCount32
  · rw [write_f32_of_lt M rf h]
    refine ⟨rfl, fun i hi => ?_⟩
    have hne : i ≠ ⟨index, h⟩ := fun e => hi (congrArg Fin.val e)
    simp [Function.update_noteq hne]
  · simp [write_f32, rf.write32_of_ge (Nat.le_of_not_lt h)]

/-- The helper `write_f64` touches the 64-bit register `index` at most. -/
theorem write_f64_frame (M : FloatModel) (rf : RegisterFile) (index : Nat)
    (value : M.Float64) :
    (write_f64 M rf index value).1.reg32_ = rf.reg32_ ∧
    ∀ i : Fin kRegisterCount64, i.val ≠ index →
      (write_f64 M rf index value).1.reg64_ i = rf.reg64_ i := by
  by_cases h : index < kRegisterCount64
  · rw [write_f64_of_lt M rf h]
    refine ⟨rfl, fun i hi => ?_⟩
    have hne : i ≠ ⟨index, h⟩ := fun e => hi (congrArg Fin.val e)
    simp [Function.update_noteq hne]
  · simp [write_f64, rf.write64_of_ge (Nat.le_of_not_lt h)]

namespace OperationDispatcher

/-- For an identifier of the 32-bit family, `execute` either leaves the
register file alone or leaves what one `write_f32` to the destination
leaves. -/
theorem execute_family32 (M : FloatModel) (rf : RegisterFile) (req : OperationRequest)
    (h : req.id < 4) :
    (execute M rf req).1 = rf ∨
      ∃ value : M.Float32, (execute M rf req).1 = (write_f32 M rf req.destination value).1 := by
  obtain ⟨id, d, s0, s1⟩ := req
  simp only at h
  interval_cases id <;> simp only [execute] <;> split <;>
    first
      | exact Or.inl rfl
      | exact Or.inr ⟨_, rfl⟩

/-- For an identifier of the 64-bit family, `execute` either leaves the
register file alone or leaves what one `write_f64` to the destination
leaves. -/
theorem execute_family64 (M : FloatModel) (rf : RegisterFile) (req : OperationRequest)
    (hlo : 4 ≤ req.id) (hhi : req.id < 12) :
    (execute M rf req).1 = rf ∨
      ∃ value : M.Float64, (execute M rf req).1 = (write_f64 M rf req.destination value).1 := by
  obtain ⟨id, d, s0, s1⟩ := req
  simp only at hlo hhi
  interval_cases id <;> simp only [execute] <;> split <;>
    first
      | exact Or.inl rfl
      | exact Or.inr ⟨_, rfl⟩

/-- For an identifier outside the enumeration, `execute` takes the `default`
branch. -/
theorem execute_default (M : FloatModel) (rf : RegisterFile) (req : OperationRequest)
    (h : 12 ≤ req.id) :
    execute M rf req = (rf, { ok := false, error := some "unsupported operation" }) := by
  obtain ⟨id, d, s0, s1⟩ := req
  simp only at h
  obtain ⟨k, rfl⟩ := Nat.exists_eq_add_of_le h
  simp only [execute]
  split <;> first | rfl | omega

end OperationDispatcher

/-! ## Operation dispatcher: contract -/

/-- C8. For every float model, every register file and every request with
8-bit destination and source fields and one of the twelve recognised
identifiers, after `execute` the destination register of the operation's own
array (32-bit for Add32, Sub32, Mul32, Div32; 64-bit for the other eight)
holds the bits of the operator applied to the reinterpreted values that
`source0` (and `source1`, for the binary operations) held in that array before
the call, whether or not the destination is one of the sources; and for
Sine64, Cosine64, Tangent64 and SquareRoot64 the outcome of `execute` is the
same for every value of `source1`. -/
theorem execute_computes_from_sources (M : FloatModel) (rf : RegisterFile) (d s0 s1 : Nat)
    (hd : d < 256) (h0 : s0 < 256) (h1 : s1 < 256) :
    (OperationDispatcher.execute M rf ⟨OperationId.Add32, d, s0, s1⟩).1.reg32_ ⟨d, hd⟩
      = M.bit_cast_Word32 (M.add32 (M.bit_cast_float (rf.reg32_ ⟨s0, h0⟩))
          (M.bit_cast_float (rf.reg32_ ⟨s1, h1⟩))) ∧
    (OperationDispatcher.execute M rf ⟨OperationId.Sub32, d, s0, s1⟩).1.reg32_ ⟨d, hd⟩
      = M.bit_cast_Word32 (M.sub32 (M.bit_cast_float (rf.reg32_ ⟨s0, h0⟩))
          (M.bit_cast_float (rf.reg32_ ⟨s1, h1⟩))) ∧
    (OperationDispatcher.execute M rf ⟨OperationId.Mul32, d, s0, s1⟩).1.reg32_ ⟨d, hd⟩
      = M.bit_cast_Word32 (M.mul32 (M.bit_cast_float (rf.reg32_ ⟨s0, h0⟩))
          (M.bit_cast_float (rf.reg32_ ⟨s1, h1⟩))) ∧
    (OperationDispatcher.execute M rf ⟨OperationId.Div32, d, s0, s1⟩).1.reg32_ ⟨d, hd⟩
      = M.bit_cast_Word32 (M.div32 (M.bit_cast_float (rf.reg32_ ⟨s0, h0⟩))
          (M.bit_cast_float (rf.reg32_ ⟨s1, h1⟩))) ∧
    (OperationDispatcher.execute M rf ⟨OperationId.Add64, d, s0, s1⟩).1.reg64_ ⟨d, hd⟩
      = M.bit_cast_Word64 (M.add64 (M.bit_cast_double (rf.reg64_ ⟨s0, h0⟩))
          (M.bit_cast_double (rf.reg64_ ⟨s1, h1⟩))) ∧
    (OperationDispatcher.execute M rf ⟨OperationId.Sub64, d, s0, s1⟩).1.reg64_ ⟨d, hd⟩
      = M.bit_cast_Word64 (M.sub64 (M.bit_cast_double (rf.reg64_ ⟨s0, h0⟩))
          (M.bit_cast_double (rf.reg64_ ⟨s1, h1⟩))) ∧
    (OperationDispatcher.execute M rf ⟨OperationId.Mul64, d, s0, s1⟩).1.reg64_ ⟨d, hd⟩
      = M.bit_cast_Word64 (M.mul64 (M.bit_cast_double (rf.reg64_ ⟨s0, h0⟩))
          (M.bit_cast_double (rf.reg64_ ⟨s1, h1⟩))) ∧
    (OperationDispatcher.execute M rf ⟨OperationId.Div64, d, s0, s1⟩).1.reg64_ ⟨d, hd⟩
      = M.bit_cast_Word64 (M.div64 (M.bit_cast_double (rf.reg64_ ⟨s0, h0⟩))
          (M.bit_cast_double (rf.reg64_ ⟨s1, h1⟩))) ∧
    (OperationDispatcher.execute M rf ⟨OperationId.Sine64, d, s0, s1⟩).1.reg64_ ⟨d, hd⟩
      = M.bit_cast_Word64 (M.sin (M.bit_cast_double (rf.reg64_ ⟨s0, h0⟩))) ∧
    (OperationDispatcher.execute M rf ⟨OperationId.Cosine64, d, s0, s1⟩).1.reg64_ ⟨d, hd⟩
      = M.bit_cast_Word64 (M.cos (M.bit_cast_double (rf.reg64_ ⟨s0, h0⟩))) ∧
    (OperationDispatcher.execute M rf ⟨OperationId.Tangent64, d, s0, s1⟩).1.reg64_ ⟨d, hd⟩
      = M.bit_cast_Word64 (M.tan (M.bit_cast_double (rf.reg64_ ⟨s0, h0⟩))) ∧
    (OperationDispatcher.execute M rf ⟨OperationId.SquareRoot64, d, s0, s1⟩).1.reg64_ ⟨d, hd⟩
      = M.bit_cast_Word64 (M.sqrt (M.bit_cast_double (rf.reg64_ ⟨s0, h0⟩))) ∧
    (∀ s : Nat, OperationDispatcher.execute M rf ⟨OperationId.Sine64, d, s0, s⟩
      = OperationDispatcher.execute M rf ⟨OperationId.Sine64, d, s0, s1⟩) ∧
    (∀ s : Nat, OperationDispatcher.execute M rf ⟨OperationId.Cosine64, d, s0, s⟩
      = OperationDispatcher.execute M rf ⟨OperationId.Cosine64, d, s0, s1⟩) ∧
    (∀ s : Nat, OperationDispatcher.execute M rf ⟨OperationId.Tangent64, d, s0, s⟩
      = OperationDispatcher.execute M rf ⟨OperationId.Tangent64, d, s0, s1⟩) ∧
    (∀ s : Nat, OperationDispatcher.execute M rf ⟨OperationId.SquareRoot64, d, s0, s⟩
      = OperationDispatcher.execute M rf ⟨OperationId.SquareRoot64, d, s0, s1⟩) := by
  have hd32 : d < kRegisterCount32 := hd
  have hd64 : d < kRegisterCount64 := hd
  have h032 : s0 < kRegisterCount32 := h0
  have h064 : s0 < kRegisterCount64 := h0
  have h132 : s1 < kRegisterCount32 := h1
  have h164 : s1 < kRegisterCount64 := h1
  refine ⟨?_, ?_, ?_, ?_, ?_, ?_, ?_, ?_, ?_, ?_, ?_, ?_, ?_, ?_, ?_, ?_⟩
  case refine_13 | refine_14 | refine_15 | refine_16 =>
    intro s
    rfl
  all_goals
    simp [OperationDispatcher.execute, OperationId.Add32, OperationId.Sub32, OperationId.Mul32,
      OperationId.Div32, OperationId.Add64, OperationId.Sub64, OperationId.Mul64,
      OperationId.Div64, OperationId.Sine64, OperationId.Cosine64, OperationId.Tangent64,
      OperationId.SquareRoot64, load_f32_of_lt M rf h032, load_f32_of_lt M rf h132,
      load_f64_of_lt M rf h064, load_f64_of_lt M rf h164, write_f32_of_lt M rf hd32,
      write_f64_of_lt M rf hd64]

/-- Witness of C8: the word model, the register file after `clear`,
destination 2, sources 2 and 1 (the destination is also `source0`). -/
theorem execute_computes_from_sources_witness :
    ((2 : Nat) < 256 ∧ (1 : Nat) < 256) ∧
    ((OperationDispatcher.execute FloatModel.words RegisterFile.init ⟨OperationId.Add32, 2, 2, 1⟩).1.reg32_ ⟨2, by decide⟩
        = FloatModel.words.bit_cast_Word32 (FloatModel.words.add32 (FloatModel.words.bit_cast_float (RegisterFile.init.reg32_ ⟨2, by decide⟩))
            (FloatModel.words.bit_cast_float (RegisterFile.init.reg32_ ⟨1, by decide⟩))) ∧
      (OperationDispatcher.execute FloatModel.words RegisterFile.init ⟨OperationId.Sub32, 2, 2, 1⟩).1.reg32_ ⟨2, by decide⟩
        = FloatModel.words.bit_cast_Word32 (FloatModel.words.sub32 (FloatModel.words.bit_cast_float (RegisterFile.init.reg32_ ⟨2, by decide⟩))
            (FloatModel.words.bit_cast_float (RegisterFile.init.reg32_ ⟨1, by decide⟩))) ∧
      (OperationDispatcher.execute FloatModel.words RegisterFile.init ⟨OperationId.Mul32, 2, 2, 1⟩).1.reg32_ ⟨2, by decide⟩
        = FloatModel.words.bit_cast_Word32 (FloatModel.words.mul32 (FloatModel.words.bit_cast_float (RegisterFile.init.reg32_ ⟨2, by decide⟩))
            (FloatModel.words.bit_cast_float (RegisterFile.init.reg32_ ⟨1, by decide⟩))) ∧
      (OperationDispatcher.execute FloatModel.words RegisterFile.init ⟨OperationId.Div32, 2, 2, 1⟩).1.reg32_ ⟨2, by decide⟩
        = FloatModel.words.bit_cast_Word32 (FloatModel.words.div32 (FloatModel.words.bit_cast_float (RegisterFile.init.reg32_ ⟨2, by decide⟩))
            (FloatModel.words.bit_cast_float (RegisterFile.init.reg32_ ⟨1, by decide⟩))) ∧
      (OperationDispatcher.execute FloatModel.words RegisterFile.init ⟨OperationId.Add64, 2, 2, 1⟩).1.reg64_ ⟨2, by decide⟩
        = FloatModel.words.bit_cast_Word64 (FloatModel.words.add64 (FloatModel.words.bit_cast_double (RegisterFile.init.reg64_ ⟨2, by decide⟩))
            (FloatModel.words.bit_cast_double (RegisterFile.init.reg64_ ⟨1, by decide⟩))) ∧
      (OperationDispatcher.execute FloatModel.words RegisterFile.init ⟨OperationId.Sub64, 2, 2, 1⟩).1.reg64_ ⟨2, by decide⟩
        = FloatModel.words.bit_cast_Word64 (FloatModel.words.sub64 (FloatModel.words.bit_cast_double (RegisterFile.init.reg64_ ⟨2, by decide⟩))
            (FloatModel.words.bit_cast_double (RegisterFile.init.reg64_ ⟨1, by decide⟩))) ∧
      (OperationDispatcher.execute FloatModel.words RegisterFile.init ⟨OperationId.Mul64, 2, 2, 1⟩).1.reg64_ ⟨2, by decide⟩
        = FloatModel.words.bit_cast_Word64 (FloatModel.words.mul64 (FloatModel.words.bit_cast_double (RegisterFile.init.reg64_ ⟨2, by decide⟩))
            (FloatModel.words.bit_cast_double (RegisterFile.init.reg64_ ⟨1, by decide⟩))) ∧
      (OperationDispatcher.execute FloatModel.words RegisterFile.init ⟨OperationId.Div64, 2, 2, 1⟩).1.reg64_ ⟨2, by decide⟩
        = FloatModel.words.bit_cast_Word64 (FloatModel.words.div64 (FloatModel.words.bit_cast_double (RegisterFile.init.reg64_ ⟨2, by decide⟩))
            (FloatModel.words.bit_cast_double (RegisterFile.init.reg64_ ⟨1, by decide⟩))) ∧
      (OperationDispatcher.execute FloatModel.words RegisterFile.init ⟨OperationId.Sine64, 2, 2, 1⟩).1.reg64_ ⟨2, by decide⟩
        = FloatModel.words.bit_cast_Word64 (FloatModel.words.sin (FloatModel.words.bit_cast_double (RegisterFile.init.reg64_ ⟨2, by decide⟩))) ∧
      (OperationDispatcher.execute FloatModel.words RegisterFile.init ⟨OperationId.Cosine64, 2, 2, 1⟩).1.reg64_ ⟨2, by decide⟩
        = FloatModel.words.bit_cast_Word64 (FloatModel.words.cos (FloatModel.words.bit_cast_double (RegisterFile.init.reg64_ ⟨2, by decide⟩))) ∧
      (OperationDispatcher.execute FloatModel.words RegisterFile.init ⟨OperationId.Tangent64, 2, 2, 1⟩).1.reg64_ ⟨2, by decide⟩
        = FloatModel.words.bit_cast_Word64 (FloatModel.words.tan (FloatModel.words.bit_cast_double (RegisterFile.init.reg64_ ⟨2, by decide⟩))) ∧
      (OperationDispatcher.execute FloatModel.words RegisterFile.init ⟨OperationId.SquareRoot64, 2, 2, 1⟩).1.reg64_ ⟨2, by decide⟩
        = FloatModel.words.bit_cast_Word64 (FloatModel.words.sqrt (FloatModel.words.bit_cast_double (RegisterFile.init.reg64_ ⟨2, by decide⟩))) ∧
      (∀ s : Nat, OperationDispatcher.execute FloatModel.words RegisterFile.init ⟨OperationId.Sine64, 2, 2, s⟩
        = OperationDispatcher.execute FloatModel.words RegisterFile.init ⟨OperationId.Sine64, 2, 2, 1⟩) ∧
      (∀ s : Nat, OperationDispatcher.execute FloatModel.words RegisterFile.init ⟨OperationId.Cosine64, 2, 2, s⟩
        = OperationDispatcher.execute FloatModel.words RegisterFile.init ⟨OperationId.Cosine64, 2, 2, 1⟩) ∧
      (∀ s : Nat, OperationDispatcher.execute FloatModel.words RegisterFile.init ⟨OperationId.Tangent64, 2, 2, s⟩
        = OperationDispatcher.execute FloatModel.words RegisterFile.init ⟨OperationId.Tangent64, 2, 2, 1⟩) ∧
      (∀ s : Nat, OperationDispatcher.execute FloatModel.words RegisterFile.init ⟨OperationId.SquareRoot64, 2, 2, s⟩
        = OperationDispatcher.execute FloatModel.words RegisterFile.init ⟨OperationId.SquareRoot64, 2, 2, 1⟩)) :=
  ⟨by decide, execute_computes_from_sources FloatModel.words RegisterFile.init 2 2 1
    (by decide) (by decide) (by decide)⟩

/-- C9. For every float model, every register file and every request (any
identifier, any destination and source values), a register that `execute`
changes is the destination register in the array of the operation: a 32-bit
register differs after the call only if the identifier is of the 32-bit family
and the register is the destination, and a 64-bit register differs only if the
identifier is of the 64-bit family and the register is the destination. So at
most one register changes, and the other array as a whole (the register with
the destination index included) is as before. -/
theorem execute_changes_at_most_destination (M : FloatModel) (rf : RegisterFile)
    (req : OperationRequest) :
    (∀ i : Fin kRegisterCount32,
      (OperationDispatcher.execute M rf req).1.reg32_ i = rf.reg32_ i ∨
        (req.id < 4 ∧ i.val = req.destination)) ∧
    (∀ j : Fin kRegisterCount64,
      (OperationDispatcher.execute M rf req).1.reg64_ j = rf.reg64_ j ∨
        (4 ≤ req.id ∧ req.id < 12 ∧ j.val = req.destination)) := by
  by_cases h32 : req.id < 4
  · have frame : (OperationDispatcher.execute M rf req).1.reg64_ = rf.reg64_ ∧
        ∀ i : Fin kRegisterCount32, i.val ≠ req.destination →
          (OperationDispatcher.execute M rf req).1.reg32_ i = rf.reg32_ i := by
      rcases OperationDispatcher.execute_family32 M rf req h32 with e | ⟨value, e⟩
      · rw [e]
        exact ⟨rfl, fun _ _ => rfl⟩
      · rw [e]
        exact write_f32_frame M rf req.destination value
    refine ⟨fun i => ?_, fun j => Or.inl (congrFun frame.1 j)⟩
    by_cases hi : i.val = req.destination
    · exact Or.inr ⟨h32, hi⟩
    · exact Or.inl (frame.2 i hi)
  · by_cases h64 : req.id < 12
    · have hlo : 4 ≤ req.id := Nat.le_of_not_lt h32
      have frame : (OperationDispatcher.execute M rf req).1.reg32_ = rf.reg32_ ∧
          ∀ j : Fin kRegisterCount64, j.val ≠ req.destination →
            (OperationDispatcher.execute M rf req).1.reg64_ j = rf.reg64_ j := by
        rcases OperationDispatcher.execute_family64 M rf req hlo h64 with e | ⟨value, e⟩
        · rw [e]
          exact ⟨rfl, fun _ _ => rfl⟩
        · rw [e]
          exact write_f64_frame M rf req.destination value
      refine ⟨fun i => Or.inl (congrFun frame.1 i), fun j => ?_⟩
      by_cases hj : j.val = req.destination
      · exact Or.inr ⟨hlo, h64, hj⟩
      · exact Or.inl (frame.2 j hj)
    · rw [OperationDispatcher.execute_default M rf req (Nat.le_of_not_lt h64)]
      exact ⟨fun _ => Or.inl rfl, fun _ => Or.inl rfl⟩

/-- C10. For every float model, every register file and every request whose
identifier byte is 12 or more (so none of the twelve enumerators), `execute`
returns `ok = false` with the diagnostic "unsupported operation" and the
register file after the call is the register file before it. -/
theorem execute_unsupported_operation (M : FloatModel) (rf : RegisterFile)
    (req : OperationRequest) (h : 12 ≤ req.id) :
    (OperationDispatcher.execute M rf req).2.ok = false ∧
    (OperationDispatcher.execute M rf req).2.error = some "unsupported operation" ∧
    (OperationDispatcher.execute M rf req).1 = rf := by
  rw [OperationDispatcher.execute_default M rf req h]
  exact ⟨rfl, rfl, rfl⟩

/-- Witness of C10: the identifier byte 255 on the register file after
`clear`. -/
theorem execute_unsupported_operation_witness :
    12 ≤ (⟨255, 2, 0, 1⟩ : OperationRequest).id ∧
    ((OperationDispatcher.execute FloatModel.words RegisterFile.init ⟨255, 2, 0, 1⟩).2.ok
        = false ∧
      (OperationDispatcher.execute FloatModel.words RegisterFile.init ⟨255, 2, 0, 1⟩).2.error
        = some "unsupported operation" ∧
      (OperationDispatcher.execute FloatModel.words RegisterFile.init ⟨255, 2, 0, 1⟩).1
        = RegisterFile.init) :=
  ⟨by decide, execute_unsupported_operation FloatModel.words RegisterFile.init ⟨255, 2, 0, 1⟩
    (by decide)⟩

/-! ## Opcode store: contract -/

namespace OpcodeRam

theorem write_of_lt (self : OpcodeRam) {index : Nat} (h : index < kOpcodeRamSize)
    (opcode : Opcode) :
    self.write index opcode =
      ({ storage_ := Function.update self.storage_ ⟨index, h⟩ opcode }, true) := by
  simp [write, Nat.not_le.mpr h]

theorem write_of_ge (self : OpcodeRam) {index : Nat} (h : kOpcodeRamSize ≤ index)
    (opcode : Opcode) : self.write index opcode = (self, false) := by
  simp [write, h]

theorem read_of_lt (self : OpcodeRam) {index : Nat} (h : index < kOpcodeRamSize) :
    self.read index = some (self.storage_ ⟨index, h⟩) := by
  simp [read, Nat.not_le.mpr h]

theorem read_of_ge (self : OpcodeRam) {index : Nat} (h : kOpcodeRamSize ≤ index) :
    self.read index = none := by
  simp [read, h]

end OpcodeRam

/-- C11. For every opcode store, every index and every record, `write`
returns true exactly when the index is below 1024 (so it succeeds at 1023 and
fails at 1024); it returns true or leaves the store as it was; and `read`
returns absent exactly when the index is 1024 or more. -/
theorem opcode_ram_bounds (ram : OpcodeRam) (index : Nat) (record : Opcode) :
    ((ram.write index record).2 = true ↔ index < 1024) ∧
    (ram.write 1023 record).2 = true ∧
    (ram.write 1024 record).2 = false ∧
    (ram.write 1024 record).1 = ram ∧
    ((ram.write index record).2 = true ∨ (ram.write index record).1 = ram) ∧
    (ram.read index = none ↔ 1024 ≤ index) := by
  have h1023 : (1023 : Nat) < kOpcodeRamSize := by decide
  have h1024 : kOpcodeRamSize ≤ (1024 : Nat) := by decide
  rw [ram.write_of_lt h1023, ram.write_of_ge h1024]
  by_cases h : index < kOpcodeRamSize
  · have hlt : index < 1024 := h
    rw [ram.write_of_lt h, ram.read_of_lt h]
    refine ⟨⟨fun _ => hlt, fun _ => rfl⟩, rfl, rfl, rfl, Or.inl rfl, ?_⟩
    constructor
    · intro e
      cases e
    · intro hge
      omega
  · have hge : kOpcodeRamSize ≤ index := Nat.le_of_not_lt h
    have hge' : 1024 ≤ index := hge
    rw [ram.write_of_ge hge, ram.read_of_ge hge]
    refine ⟨⟨?_, ?_⟩, rfl, rfl, rfl, Or.inr rfl, ⟨fun _ => hge', fun _ => rfl⟩⟩
    · intro e
      cases e
    · intro hlt
      omega

/-- C12. For every opcode store, every index below 1024 and every record,
after `write(index, record)` the call `read(index)` returns that record, all
four fields as written, and `read(j)` for every other `j` returns what it
returned before the write. -/
theorem opcode_ram_write_read (ram : OpcodeRam) (index : Nat) (record : Opcode)
    (h : index < 1024) :
    (ram.write index record).1.read index = some record ∧
    (∀ j : Nat, j ≠ index → (ram.write index record).1.read j = ram.read j) := by
  have hlt : index < kOpcodeRamSize := h
  rw [ram.write_of_lt hlt]
  constructor
  · rw [OpcodeRam.read_of_lt _ hlt]
    simp
  · intro j hj
    by_cases hjlt : j < kOpcodeRamSize
    · rw [OpcodeRam.read_of_lt _ hjlt, OpcodeRam.read_of_lt _ hjlt]
      have hne : (⟨j, hjlt⟩ : Fin kOpcodeRamSize) ≠ ⟨index, hlt⟩ :=
        fun e => hj (congrArg Fin.val e)
      simp [Function.update_noteq hne]
    · rw [OpcodeRam.read_of_ge _ (Nat.le_of_not_lt hjlt),
        OpcodeRam.read_of_ge _ (Nat.le_of_not_lt hjlt)]

/-- Witness of C12: an `ExecuteOp` record written to slot 1023 of a new
store. -/
theorem opcode_ram_write_read_witness :
    (1023 : Nat) < 1024 ∧
    ((OpcodeRam.init.write 1023 ⟨OpcodeKind.ExecuteOp, 7, 8, 9⟩).1.read 1023
        = some ⟨OpcodeKind.ExecuteOp, 7, 8, 9⟩ ∧
      (∀ j : Nat, j ≠ 1023 →
        (OpcodeRam.init.write 1023 ⟨OpcodeKind.ExecuteOp, 7, 8, 9⟩).1.read j
          = OpcodeRam.init.read j)) :=
  ⟨by decide, opcode_ram_write_read OpcodeRam.init 1023 ⟨OpcodeKind.ExecuteOp, 7, 8, 9⟩
    (by decide)⟩

/-- C13. For every opcode store, after `clear()` the call `read(i)` returns
the record with kind Nop and operands 0, 0, 0 for every `i` below 1024, and a
newly constructed store is equal to the cleared one. -/
theorem opcode_ram_clear (ram : OpcodeRam) (i : Nat) (h : i < 1024) :
    ram.clear.read i
      = some { kind := OpcodeKind.Nop, operand0 := 0, operand1 := 0, operand2 := 0 } ∧
    OpcodeRam.init = ram.clear := by
  have hlt : i < kOpcodeRamSize := h
  rw [OpcodeRam.read_of_lt _ hlt]
  exact ⟨rfl, rfl⟩

/-- Witness of C13: slot 1023 of a store cleared after a write to that
slot. -/
theorem opcode_ram_clear_witness :
    (1023 : Nat) < 1024 ∧
    ((OpcodeRam.init.write 1023 ⟨OpcodeKind.ExecuteOp, 7, 8, 9⟩).1.clear.read 1023
        = some { kind := OpcodeKind.Nop, operand0 := 0, operand1 := 0, operand2 := 0 } ∧
      OpcodeRam.init = (OpcodeRam.init.write 1023 ⟨OpcodeKind.ExecuteOp, 7, 8, 9⟩).1.clear) :=
  ⟨by decide, opcode_ram_clear (OpcodeRam.init.write 1023 ⟨OpcodeKind.ExecuteOp, 7, 8, 9⟩).1
    1023 (by decide)⟩

/-! ## Register file: clear, independence of the two arrays, readability -/

/-- C14. For every register file, after `clear()` both `read32(i)` and
`read64(i)` return 0 for every `i` below 256, and `clear()` is idempotent:
clearing twice gives the register file that clearing once gives. -/
theorem register_clear (rf : RegisterFile) (i : Nat) (h : i < 256) :
    rf.clear.read32 i = some 0 ∧ rf.clear.read64 i = some 0 ∧
    rf.clear.clear = rf.clear := by
  have h32 : i < kRegisterCount32 := h
  have h64 : i < kRegisterCount64 := h
  rw [RegisterFile.read32_of_lt _ h32, RegisterFile.read64_of_lt _ h64]
  exact ⟨rfl, rfl, rfl⟩

/-- Witness of C14: register 255 of a register file cleared after two
writes. -/
theorem register_clear_witness :
    (255 : Nat) < 256 ∧
    (((RegisterFile.init.write32 255 7).1.write64 255 9).1.clear.read32 255 = some 0 ∧
      ((RegisterFile.init.write32 255 7).1.write64 255 9).1.clear.read64 255 = some 0 ∧
      ((RegisterFile.init.write32 255 7).1.write64 255 9).1.clear.clear
        = ((RegisterFile.init.write32 255 7).1.write64 255 9).1.clear) :=
  ⟨by decide, register_clear ((RegisterFile.init.write32 255 7).1.write64 255 9).1 255
    (by decide)⟩

/-- The method `write32` leaves the 64-bit array and every other 32-bit
register as they were. -/
theorem RegisterFile.write32_frame (rf : RegisterFile) (i v : Nat) :
    (rf.write32 i v).1.reg64_ = rf.reg64_ ∧
    ∀ j : Nat, j ≠ i → (rf.write32 i v).1.read32 j = rf.read32 j := by
  by_cases hi : i < kRegisterCount32
  · rw [rf.write32_of_lt hi]
    refine ⟨rfl, fun j hj => ?_⟩
    by_cases hjlt : j < kRegisterCount32
    · rw [RegisterFile.read32_of_lt _ hjlt, RegisterFile.read32_of_lt _ hjlt]
      have hne : (⟨j, hjlt⟩ : Fin kRegisterCount32) ≠ ⟨i, hi⟩ :=
        fun e => hj (congrArg Fin.val e)
      simp [Function.update_noteq hne]
    · rw [RegisterFile.read32_of_ge _ (Nat.le_of_not_lt hjlt),
        RegisterFile.read32_of_ge _ (Nat.le_of_not_lt hjlt)]
  · rw [rf.write32_of_ge (Nat.le_of_not_lt hi)]
    exact ⟨rfl, fun _ _ => rfl⟩

/-- The method `write64` leaves the 32-bit array and every other 64-bit
register as they were. -/
theorem RegisterFile.write64_frame (rf : RegisterFile) (i v : Nat) :
    (rf.write64 i v).1.reg32_ = rf.reg32_ ∧
    ∀ j : Nat, j ≠ i → (rf.write64 i v).1.read64 j = rf.read64 j := by
  by_cases hi : i < kRegisterCount64
  · rw [rf.write64_of_lt hi]
    refine ⟨rfl, fun j hj => ?_⟩
    by_cases hjlt : j < kRegisterCount64
    · rw [RegisterFile.read64_of_lt _ hjlt, RegisterFile.read64_of_lt _ hjlt]
      have hne : (⟨j, hjlt⟩ : Fin kRegisterCount64) ≠ ⟨i, hi⟩ :=
        fun e => hj (congrArg Fin.val e)
      simp [Function.update_noteq hne]
    · rw [RegisterFile.read64_of_ge _ (Nat.le_of_not_lt hjlt),
        RegisterFile.read64_of_ge _ (Nat.le_of_not_lt hjlt)]
  · rw [rf.write64_of_ge (Nat.le_of_not_lt hi)]
    exact ⟨rfl, fun _ _ => rfl⟩

/-- C15. The two register arrays are independent: for every register file,
every `i`, `k`, every `j` other than `i` and all values `v`, `w`,
`write32(i, v)` leaves `read64(k)` as it was (also for `k = i`) and leaves
`read32(j)` as it was; `write64(i, w)` leaves `read32(k)` as it was (also for
`k = i`) and leaves `read64(j)` as it was. -/
theorem register_spaces_independent (rf : RegisterFile) (i j k v w : Nat) (hne : j ≠ i) :
    (rf.write32 i v).1.read64 k = rf.read64 k ∧
    (rf.write32 i v).1.read64 i = rf.read64 i ∧
    (rf.write32 i v).1.read32 j = rf.read32 j ∧
    (rf.write64 i w).1.read32 k = rf.read32 k ∧
    (rf.write64 i w).1.read32 i = rf.read32 i ∧
    (rf.write64 i w).1.read64 j = rf.read64 j := by
  have e32 : ∀ n : Nat, (rf.write64 i w).1.read32 n = rf.read32 n := by
    intro n
    simp only [RegisterFile.read32, (rf.write64_frame i w).1]
  have e64 : ∀ n : Nat, (rf.write32 i v).1.read64 n = rf.read64 n := by
    intro n
    simp only [RegisterFile.read64, (rf.write32_frame i v).1]
  exact ⟨e64 k, e64 i, (rf.write32_frame i v).2 j hne, e32 k, e32 i,
    (rf.write64_frame i w).2 j hne⟩

/-- Witness of C15: writes to index 5 of a register file that holds 11 in the
32-bit register 5 and 13 in the 64-bit register 5, observed at `j = 6` and
`k = 5`. -/
theorem register_spaces_independent_witness :
    (6 : Nat) ≠ 5 ∧
    ((((RegisterFile.init.write32 5 11).1.write64 5 13).1.write32 5 17).1.read64 5
        = ((RegisterFile.init.write32 5 11).1.write64 5 13).1.read64 5 ∧
      (((RegisterFile.init.write32 5 11).1.write64 5 13).1.write32 5 17).1.read64 5
        = ((RegisterFile.init.write32 5 11).1.write64 5 13).1.read64 5 ∧
      (((RegisterFile.init.write32 5 11).1.write64 5 13).1.write32 5 17).1.read32 6
        = ((RegisterFile.init.write32 5 11).1.write64 5 13).1.read32 6 ∧
      (((RegisterFile.init.write32 5 11).1.write64 5 13).1.write64 5 19).1.read32 5
        = ((RegisterFile.init.write32 5 11).1.write64 5 13).1.read32 5 ∧
      (((RegisterFile.init.write32 5 11).1.write64 5 13).1.write64 5 19).1.read32 5
        = ((RegisterFile.init.write32 5 11).1.write64 5 13).1.read32 5 ∧
      (((RegisterFile.init.write32 5 11).1.write64 5 13).1.write64 5 19).1.read64 6
        = ((RegisterFile.init.write32 5 11).1.write64 5 13).1.read64 6) :=
  ⟨by decide, register_spaces_independent
    ((RegisterFile.init.write32 5 11).1.write64 5 13).1 5 6 5 17 19 (by decide)⟩

/-- C16. Readability invariant: in the register file reached from the initial
one by any sequence of `write32`, `write64` (with any index, in range or not)
and `clear` calls, `read32(i)` and `read64(i)` return a present value for
every `i` below 256; and the initial register file reads as zero there. -/
theorem register_always_readable (calls : List RegisterCall) (i : Nat) (h : i < 256) :
    ((RegisterFile.init.run calls).read32 i).isSome = true ∧
    ((RegisterFile.init.run calls).read64 i).isSome = true ∧
    RegisterFile.init.read32 i = some 0 ∧ RegisterFile.init.read64 i = some 0 := by
  have h32 : i < kRegisterCount32 := h
  have h64 : i < kRegisterCount64 := h
  rw [RegisterFile.read32_of_lt _ h32, RegisterFile.read64_of_lt _ h64,
    RegisterFile.read32_of_lt _ h32, RegisterFile.read64_of_lt _ h64]
  exact ⟨rfl, rfl, rfl, rfl⟩

/-- Witness of C16: register 255 after an in-range write, an out-of-range
write, a clear and a 64-bit write. -/
theorem register_always_readable_witness :
    (255 : Nat) < 256 ∧
    (((RegisterFile.init.run
        [RegisterCall.write32 255 7, RegisterCall.write64 256 9, RegisterCall.clear,
          RegisterCall.write64 255 3]).read32 255).isSome = true ∧
      ((RegisterFile.init.run
        [RegisterCall.write32 255 7, RegisterCall.write64 256 9, RegisterCall.clear,
          RegisterCall.write64 255 3]).read64 255).isSome = true ∧
      RegisterFile.init.read32 255 = some 0 ∧ RegisterFile.init.read64 255 = some 0) :=
  ⟨by decide, register_always_readable
    [RegisterCall.write32 255 7, RegisterCall.write64 256 9, RegisterCall.clear,
      RegisterCall.write64 255 3] 255 (by decide)⟩

/-! ## Poll loop: the busy handshake -/

/-- On the bus, `handle_transaction` leaves the signals alone and makes either
no call or one `respond` call for the transaction it handles. -/
theorem handle_transaction_bus (context : SystemContext) (tx : BusTransaction) :
    (handle_transaction context tx).1.bus.signals_ = context.bus.signals_ ∧
    ((handle_transaction context tx).1.bus.calls = context.bus.calls ∨
      ∃ data : List Nat,
        (handle_transaction context tx).1.bus.calls
          = context.bus.calls ++ [BusCall.respond tx data]) := by
  unfold handle_transaction
  split
  · split
    · exact ⟨rfl, Or.inl rfl⟩
    · split
      · exact ⟨rfl, Or.inl rfl⟩
      · exact ⟨rfl, Or.inl rfl⟩
  · split
    · split
      · exact ⟨rfl, Or.inr ⟨_, rfl⟩⟩
      · exact ⟨rfl, Or.inl rfl⟩
    · exact ⟨rfl, Or.inl rfl⟩

/-- C18. One pass of the poll loop, entered with busy false. If `poll`
returned a transaction, the calls made on the bus are `set_busy(true)`, then
at most one `respond` for that transaction, then `set_busy(false)`, in this
order and nothing else; busy is true when `handle_transaction` returns and
false after the pass. If `poll` returned nothing, the context is untouched, so
`set_busy` is not called and busy is still false. And `handle_transaction`
never changes the bus signals, whatever the context. -/
theorem busy_handshake (context : SystemContext) (tx : BusTransaction)
    (hidle : context.bus.signals_.busy = false) :
    ((run_bus_loop_body context (some tx)).bus.calls
        = context.bus.calls ++ [BusCall.set_busy true, BusCall.set_busy false] ∨
      ∃ data : List Nat,
        (run_bus_loop_body context (some tx)).bus.calls
          = context.bus.calls ++
              [BusCall.set_busy true, BusCall.respond tx data, BusCall.set_busy false]) ∧
    (handle_transaction { context with bus := context.bus.set_busy true } tx).1.bus.signals_.busy
      = true ∧
    (run_bus_loop_body context (some tx)).bus.signals_.busy = false ∧
    run_bus_loop_body context none = context ∧
    (run_bus_loop_body context none).bus.signals_.busy = false ∧
    (∀ c : SystemContext,
      (handle_transaction c tx).1.bus.signals_ = c.bus.signals_) := by
  have hb := handle_transaction_bus { context with bus := context.bus.set_busy true } tx
  refine ⟨?_, ?_, rfl, rfl, hidle, fun c => (handle_transaction_bus c tx).1⟩
  · have key : (run_bus_loop_body context (some tx)).bus.calls
        = (handle_transaction { context with bus := context.bus.set_busy true } tx).1.bus.calls
            ++ [BusCall.set_busy false] := rfl
    have base : ({ context with bus := context.bus.set_busy true } : SystemContext).bus.calls
        = context.bus.calls ++ [BusCall.set_busy true] := rfl
    rcases hb.2 with e | ⟨data, e⟩
    · left
      rw [key, e, base, List.append_assoc]
      rfl
    · right
      refine ⟨data, ?_⟩
      rw [key, e, base, List.append_assoc, List.append_assoc]
      rfl
  · rw [hb.1]
    rfl

/-- Witness of C18: the start-up context and a Read at address 3 with an empty
payload. -/
theorem busy_handshake_witness :
    SystemContext.init.bus.signals_.busy = false ∧
    (((run_bus_loop_body SystemContext.init (some ⟨BusDirection.Read, 3, []⟩)).bus.calls
          = SystemContext.init.bus.calls ++ [BusCall.set_busy true, BusCall.set_busy false] ∨
        ∃ data : List Nat,
          (run_bus_loop_body SystemContext.init (some ⟨BusDirection.Read, 3, []⟩)).bus.calls
            = SystemContext.init.bus.calls ++
                [BusCall.set_busy true, BusCall.respond ⟨BusDirection.Read, 3, []⟩ data,
                  BusCall.set_busy false]) ∧
      (handle_transaction
          { SystemContext.init with bus := SystemContext.init.bus.set_busy true }
          ⟨BusDirection.Read, 3, []⟩).1.bus.signals_.busy = true ∧
      (run_bus_loop_body SystemContext.init
          (some ⟨BusDirection.Read, 3, []⟩)).bus.signals_.busy = false ∧
      run_bus_loop_body SystemContext.init none = SystemContext.init ∧
      (run_bus_loop_body SystemContext.init none).bus.signals_.busy = false ∧
      (∀ c : SystemContext,
        (handle_transaction c ⟨BusDirection.Read, 3, []⟩).1.bus.signals_ = c.bus.signals_)) :=
  ⟨rfl, busy_handshake SystemContext.init ⟨BusDirection.Read, 3, []⟩ rfl⟩

/-! ## Reachability of the failure results -/

/-- C19. For every float model, every register file and every request whose
identifier is one of the twelve enumerators and whose destination and source
fields are 8-bit, `execute` returns `ok = true` with no diagnostic: neither
"source register out of range" nor "destination register out of range" is
returned, and no operand value (a zero divisor, a negative argument of the
square root) makes the call fail. -/
theorem execute_recognized_never_fails (M : FloatModel) (rf : RegisterFile)
    (req : OperationRequest) (hid : req.id < 12) (hd : req.destination < 256)
    (h0 : req.source0 < 256) (h1 : req.source1 < 256) :
    (OperationDispatcher.execute M rf req).2.ok = true ∧
    (OperationDispatcher.execute M rf req).2.error = none := by
  obtain ⟨id, d, s0, s1⟩ := req
  simp only at hid hd h0 h1
  have hd32 : d < kRegisterCount32 := hd
  have hd64 : d < kRegisterCount64 := hd
  have h032 : s0 < kRegisterCount32 := h0
  have h064 : s0 < kRegisterCount64 := h0
  have h132 : s1 < kRegisterCount32 := h1
  have h164 : s1 < kRegisterCount64 := h1
  interval_cases id <;>
    simp [OperationDispatcher.execute, load_f32_of_lt M rf h032, load_f32_of_lt M rf h132,
      load_f64_of_lt M rf h064, load_f64_of_lt M rf h164, write_f32_of_lt M rf hd32,
      write_f64_of_lt M rf hd64]

/-- Witness of C19: Div32 with destination 255 and sources 1 and 2 on the
register file after `clear`, where the divisor register holds zero. -/
theorem execute_recognized_never_fails_witness :
    ((⟨OperationId.Div32, 255, 1, 2⟩ : OperationRequest).id < 12 ∧
      (⟨OperationId.Div32, 255, 1, 2⟩ : OperationRequest).destination < 256 ∧
      (⟨OperationId.Div32, 255, 1, 2⟩ : OperationRequest).source0 < 256 ∧
      (⟨OperationId.Div32, 255, 1, 2⟩ : OperationRequest).source1 < 256) ∧
    ((OperationDispatcher.execute FloatModel.words RegisterFile.init
        ⟨OperationId.Div32, 255, 1, 2⟩).2.ok = true ∧
      (OperationDispatcher.execute FloatModel.words RegisterFile.init
        ⟨OperationId.Div32, 255, 1, 2⟩).2.error = none) :=
  ⟨by decide, execute_recognized_never_fails FloatModel.words RegisterFile.init
    ⟨OperationId.Div32, 255, 1, 2⟩ (by decide) (by decide) (by decide) (by decide)⟩

/-- For an 8-bit address the flag `handle_transaction` returns is decided by
the direction and the payload length. -/
theorem handle_transaction_true_iff (context : SystemContext) (tx : BusTransaction)
    (ha : tx.address < 256) :
    (handle_transaction context tx).2 = true ↔
      (tx.direction = BusDirection.Write ∧ (tx.payload.length = 4 ∨ tx.payload.length = 8)) ∨
      (tx.direction = BusDirection.Read ∧ tx.payload = []) := by
  obtain ⟨direction, address, payload⟩ := tx
  simp only at ha
  have ha32 : address < kRegisterCount32 := ha
  have ha64 : address < kRegisterCount64 := ha
  cases direction with
  | Write =>
    by_cases h4 : payload.length = 4
    · simp [handle_transaction, h4, RegisterFile.write32_of_lt _ ha32]
    · by_cases h8 : payload.length = 8
      · simp [handle_transaction, h8, RegisterFile.write64_of_lt _ ha64]
      · simp [handle_transaction, h4, h8]
  | Read =>
    by_cases h0 : payload = []
    · simp [handle_transaction, h0, RegisterFile.read32_of_lt _ ha32]
    · simp [handle_transaction, h0]

/-- C20. For every context and every transaction with an 8-bit address,
`handle_transaction` returns true if and only if the direction is Write and
the payload has 4 or 8 bytes, or the direction is Read and the payload is
empty; the returned flag is the same in every other context; and a Read with
an empty payload at that address returns true, so it is never dropped. -/
theorem handle_transaction_result_by_shape (context : SystemContext) (tx : BusTransaction)
    (ha : tx.address < 256) :
    ((handle_transaction context tx).2 = true ↔
      (tx.direction = BusDirection.Write ∧ (tx.payload.length = 4 ∨ tx.payload.length = 8)) ∨
      (tx.direction = BusDirection.Read ∧ tx.payload = [])) ∧
    (∀ other : SystemContext, (handle_transaction other tx).2 = (handle_transaction context tx).2) ∧
    (handle_transaction context ⟨BusDirection.Read, tx.address, []⟩).2 = true := by
  refine ⟨handle_transaction_true_iff context tx ha, fun other => ?_, ?_⟩
  · have h1 := handle_transaction_true_iff context tx ha
    have h2 := handle_transaction_true_iff other tx ha
    cases hc : (handle_transaction context tx).2 <;> cases ho : (handle_transaction other tx).2
    · rfl
    · exact absurd (h1.mpr (h2.mp ho)) (by simp [hc])
    · exact absurd (h2.mpr (h1.mp hc)) (by simp [ho])
    · rfl
  · exact (handle_transaction_true_iff context ⟨BusDirection.Read, tx.address, []⟩ ha).mpr
      (Or.inr ⟨rfl, rfl⟩)

/-- Witness of C20: a Read with an empty payload at address 255 of the
start-up context. -/
theorem handle_transaction_result_by_shape_witness :
    (⟨BusDirection.Read, 255, []⟩ : BusTransaction).address < 256 ∧
    (((handle_transaction SystemContext.init ⟨BusDirection.Read, 255, []⟩).2 = true ↔
        ((⟨BusDirection.Read, 255, []⟩ : BusTransaction).direction = BusDirection.Write ∧
          ((⟨BusDirection.Read, 255, []⟩ : BusTransaction).payload.length = 4 ∨
            (⟨BusDirection.Read, 255, []⟩ : BusTransaction).payload.length = 8)) ∨
        ((⟨BusDirection.Read, 255, []⟩ : BusTransaction).direction = BusDirection.Read ∧
          (⟨BusDirection.Read, 255, []⟩ : BusTransaction).payload = [])) ∧
      (∀ other : SystemContext,
        (handle_transaction other ⟨BusDirection.Read, 255, []⟩).2
          = (handle_transaction SystemContext.init ⟨BusDirection.Read, 255, []⟩).2) ∧
      (handle_transaction SystemContext.init
        ⟨BusDirection.Read, (⟨BusDirection.Read, 255, []⟩ : BusTransaction).address, []⟩).2
        = true) :=
  ⟨by decide, handle_transaction_result_by_shape SystemContext.init
    ⟨BusDirection.Read, 255, []⟩ (by decide)⟩

end fpu
